import Mathlib

/-!
Verification development for the mybot message gateway and memory store
(`src/core/gateway.py`, `src/memory/manager.py`).

Modelling conventions:
* timestamps are natural numbers (the code stores ISO-8601 text whose ordering
  agrees with chronological order; sub-second truncation performed by SQLite's
  `datetime()` is invisible at this granularity);
* `importance` (a Python float in [0,1]) is a rational number;
* the SQLite database behind `aiosqlite` is a pair of in-memory lists
  (`db_interactions`, `db_memories`) plus a `db_available` flag: any operation
  that opens a connection fails with `PErr.dbUnavailable` when the flag is
  false, exactly as `aiosqlite.connect` raises when the backing store is down;
* `INSERT` on a duplicate primary key fails (`PErr.duplicateKey`);
* Python dicts keyed by id (the two caches) are lists with unique ids, in
  insertion order; dict assignment replaces in place;
* SQL `LIKE '%q%'` is modelled as case-insensitive substring containment (the
  queries considered contain no `%`/`_` wildcards), and SQL `ORDER BY ... DESC`
  together with Python's stable `list.sort(key, reverse=True)` are modelled by
  the stable `List.insertionSort` under the corresponding descending relation;
* a missing dict key and a key explicitly bound to `None` are both `none`.
-/

deriving instance DecidableEq for Except

namespace Mybot

/-! ### String helpers: Python `str.lower` and the substring test `a in b` -/

/-- Python `str.lower`, restricted to the ASCII case mapping. -/
def lowerStr (s : String) : String := ⟨s.data.map Char.toLower⟩

/-- Does the second list of characters start with the first? -/
def chStarts : List Char → List Char → Bool
  | [], _ => true
  | _ :: _, [] => false
  | a :: as, b :: bs => a == b && chStarts as bs

/-- Does the list contain the first list as a contiguous sublist? -/
def chSub (n : List Char) : List Char → Bool
  | [] => n.isEmpty
  | c :: cs => chStarts n (c :: cs) || chSub n cs

/-- Python substring membership `needle in hay`. -/
def strIn (needle hay : String) : Bool := chSub needle.data hay.data

/-- Python truthiness of an optional string argument (`if user_id:`):
both `None` and the empty string are falsy. -/
def optTruthy : Option String → Bool
  | none => false
  | some s => !s.isEmpty

/-- The text `json.dumps(tags)` stores in the `tags` column for a list of
plain tag strings (no characters needing JSON escapes). -/
def jsonTags (tags : List String) : String :=
  "[" ++ String.intercalate ", " (tags.map (fun t => "\"" ++ t ++ "\"")) ++ "]"

/-! ### Data model (`Interaction`, `MemoryEntry` dataclasses) -/

/-- The `Interaction` dataclass of `src/memory/manager.py`. -/
structure Interaction where
  id : String
  timestamp : Nat
  source : String
  user_id : String
  input_text : String
  output_text : String
  metadata : Option String
  session_id : Option String
deriving DecidableEq, Repr

/-- The `MemoryEntry` dataclass of `src/memory/manager.py`. -/
structure MemoryEntry where
  id : String
  timestamp : Nat
  category : String
  content : String
  tags : List String
  importance : ℚ
  expires_at : Option Nat
deriving DecidableEq, Repr

/-- Errors surfaced by the persistence layer: the backing store being
unreachable, or an `INSERT` hitting an existing primary key. -/
inductive PErr where
  | dbUnavailable
  | duplicateKey
deriving DecidableEq, Repr

/-- The state owned by `MemoryManager`: the two SQLite tables, the two
in-process caches (dicts keyed by id, in insertion order), and whether the
backing store is reachable. -/
structure MemoryState where
  db_interactions : List Interaction
  db_memories : List MemoryEntry
  interaction_cache : List Interaction
  memory_cache : List MemoryEntry
  db_available : Bool
deriving DecidableEq, Repr

/-- The dict argument of `store_interaction`; `none` marks an absent key, for
which `.get` supplies the default. -/
structure InteractionData where
  id : Option String
  timestamp : Option Nat
  source : Option String
  user_id : Option String
  input_text : Option String
  output_text : Option String
  metadata : Option String
  session_id : Option String
deriving DecidableEq, Repr

/-- The dict argument of `store_memory`. -/
structure MemoryData where
  id : Option String
  timestamp : Option Nat
  category : Option String
  content : Option String
  tags : Option (List String)
  importance : Option ℚ
  expires_at : Option Nat
deriving DecidableEq, Repr

/-! ### Sorting relations used by the queries -/

/-- Interactions ordered by timestamp descending (`ORDER BY timestamp DESC`,
`sort(key=lambda x: x.timestamp, reverse=True)`). -/
def intDesc (a b : Interaction) : Prop := b.timestamp ≤ a.timestamp

instance : DecidableRel intDesc := fun a b => Nat.decLe b.timestamp a.timestamp

instance : IsTotal Interaction intDesc :=
  ⟨fun a b => Nat.le_total b.timestamp a.timestamp⟩

instance : IsTrans Interaction intDesc :=
  ⟨fun _ _ _ h1 h2 => le_trans h2 h1⟩

/-- Stable descending-by-timestamp sort of interactions. -/
def sortIntDesc (l : List Interaction) : List Interaction := l.insertionSort intDesc

/-- Interactions ordered by timestamp ascending, used by the cache-eviction
pass (`sorted(keys, key=lambda x: cache[x].timestamp)`). -/
def intAsc (a b : Interaction) : Prop := a.timestamp ≤ b.timestamp

instance : DecidableRel intAsc := fun a b => Nat.decLe a.timestamp b.timestamp

/-- Memory entries ordered by `(importance, timestamp)` lexicographically
descending (`ORDER BY importance DESC, timestamp DESC` and
`sort(key=lambda x: (x.importance, x.timestamp), reverse=True)`). -/
def memDesc (a b : MemoryEntry) : Prop :=
  b.importance < a.importance ∨
    (b.importance = a.importance ∧ b.timestamp ≤ a.timestamp)

instance : DecidableRel memDesc := fun _ _ => by
  unfold memDesc; infer_instance

instance : IsTotal MemoryEntry memDesc := by
  constructor
  intro a b
  rcases lt_trichotomy b.importance a.importance with h | h | h
  · exact Or.inl (Or.inl h)
  · rcases Nat.le_total b.timestamp a.timestamp with ht | ht
    · exact Or.inl (Or.inr ⟨h, ht⟩)
    · exact Or.inr (Or.inr ⟨h.symm, ht⟩)
  · exact Or.inr (Or.inl h)

instance : IsTrans MemoryEntry memDesc := by
  constructor
  intro a b c hab hbc
  rcases hab with h1 | ⟨h1, t1⟩
  · rcases hbc with h2 | ⟨h2, _⟩
    · exact Or.inl (h2.trans h1)
    · exact Or.inl (h2 ▸ h1)
  · rcases hbc with h2 | ⟨h2, t2⟩
    · exact Or.inl (h1 ▸ h2)
    · exact Or.inr ⟨h2.trans h1, t2.trans t1⟩

/-- Stable descending sort of memory entries by `(importance, timestamp)`. -/
def sortMemDesc (l : List MemoryEntry) : List MemoryEntry := l.insertionSort memDesc

/-! ### Memory Store operations (`MemoryManager`) -/

/-- Dict assignment `cache[i.id] = i` on the interaction cache: replace the
entry with that id in place, or append. -/
def cacheInsertI (cache : List Interaction) (i : Interaction) : List Interaction :=
  if cache.any (fun j => j.id == i.id) then
    cache.map (fun j => if j.id == i.id then i else j)
  else cache ++ [i]

/-- Dict assignment on the memory cache. -/
def cacheInsertM (cache : List MemoryEntry) (e : MemoryEntry) : List MemoryEntry :=
  if cache.any (fun j => j.id == e.id) then
    cache.map (fun j => if j.id == e.id then e else j)
  else cache ++ [e]

/-- The interaction-cache capacity maintained by `store_interaction`. -/
def cacheCap : Nat := 100

/-- The eviction pass of `store_interaction`: while the cache holds more than
`cacheCap` entries, delete the oldest-by-timestamp ids (ties resolved by
insertion order, as Python's stable `sorted` does); the surviving entries keep
their insertion order, as dict deletion preserves order. -/
def evictOldest (cache : List Interaction) : List Interaction :=
  if cache.length ≤ cacheCap then cache
  else
    let removed := ((cache.insertionSort intAsc).take (cache.length - cacheCap)).map (·.id)
    cache.filter (fun j => !removed.contains j.id)

/-- Embeds `MemoryManager.store_interaction`: build the `Interaction` with defaults
for absent keys (`now` is the clock reading used both for the fresh
`f"int_{...}"` id supplied as `freshId` and the default timestamp), `INSERT`
it durably, then write through to the recency cache and evict. On a durable
write failure the error is logged and re-raised, and the cache is untouched. -/
def storeInteraction (d : InteractionData) (now : Nat) (freshId : String)
    (s : MemoryState) : Except PErr (MemoryState × Interaction) :=
  let i : Interaction :=
    { id := d.id.getD freshId
      timestamp := d.timestamp.getD now
      source := d.source.getD "unknown"
      user_id := d.user_id.getD "unknown"
      input_text := d.input_text.getD ""
      output_text := d.output_text.getD ""
      metadata := d.metadata
      session_id := d.session_id }
  if !s.db_available then .error .dbUnavailable
  else if s.db_interactions.any (fun j => j.id == i.id) then .error .duplicateKey
  else
    .ok ({ s with
            db_interactions := s.db_interactions ++ [i]
            interaction_cache := evictOldest (cacheInsertI s.interaction_cache i) },
         i)

/-- The importance bound 0.7 above which `store_memory` also caches the
entry (written with `mkRat` so that concrete comparisons compute). -/
def importantThreshold : ℚ := mkRat 7 10

/-- Embeds `MemoryManager.store_memory`: build the `MemoryEntry` with defaults
(`category` "general", `importance` 0.5, and so on), `INSERT` it durably, and
add it to the important-entry cache only when `importance > 0.7`. -/
def storeMemory (d : MemoryData) (now : Nat) (freshId : String)
    (s : MemoryState) : Except PErr (MemoryState × MemoryEntry) :=
  let e : MemoryEntry :=
    { id := d.id.getD freshId
      timestamp := d.timestamp.getD now
      category := d.category.getD "general"
      content := d.content.getD ""
      tags := d.tags.getD []
      importance := d.importance.getD (mkRat 5 10)
      expires_at := d.expires_at }
  if !s.db_available then .error .dbUnavailable
  else if s.db_memories.any (fun j => j.id == e.id) then .error .duplicateKey
  else
    let s1 := { s with db_memories := s.db_memories ++ [e] }
    if e.importance > importantThreshold then
      .ok ({ s1 with memory_cache := cacheInsertM s1.memory_cache e }, e)
    else .ok (s1, e)

/-- Embeds `MemoryManager.get_recent_interactions`. With a (truthy) `user_id` it is a
pure database query filtered by user, newest first, `LIMIT limit`. Without
one it takes the newest `limit` cached entries, tops the list up from the
database excluding cached ids when the cache did not fill the quota (opening
the connection only in that case), then re-sorts the union newest-first and
truncates. -/
def getRecentInteractions (user_id : Option String) (limit : Nat)
    (s : MemoryState) : Except PErr (List Interaction) :=
  if optTruthy user_id then
    if !s.db_available then .error .dbUnavailable
    else
      .ok ((sortIntDesc (s.db_interactions.filter
            (fun i => i.user_id == user_id.getD ""))).take limit)
  else
    let cached := (sortIntDesc s.interaction_cache).take limit
    let remaining := limit - cached.length
    if remaining > 0 then
      if !s.db_available then .error .dbUnavailable
      else
        let dbRows := (sortIntDesc (s.db_interactions.filter
              (fun i => !(cached.any (fun c => c.id == i.id))))).take remaining
        .ok ((sortIntDesc (dbRows ++ cached)).take limit)
    else
      .ok ((sortIntDesc cached).take limit)

/-- The sequential de-duplicating append of `search_memory`: each database row
is appended to the accumulated results unless an id-equal entry is already
present. -/
def dedupAppend (acc : List MemoryEntry) (l : List MemoryEntry) : List MemoryEntry :=
  l.foldl (fun acc e => if acc.any (fun r => r.id == e.id) then acc else acc ++ [e]) acc

/-- Embeds `MemoryManager.search_memory`. The important-entry cache is scanned first
with a case-insensitive substring match against the content and the
space-joined tag text (skipping entries of the wrong category when a truthy
category is given). Then the database is queried —
`content LIKE '%q%' OR tags LIKE '%q%'`, note the `tags` column holds the
JSON-serialized tag list — ordered by importance then timestamp descending
with `LIMIT limit`, de-duplicating by id against the results so far. The
union is re-sorted by `(importance, timestamp)` descending and truncated.
No expiry filtering happens anywhere in this operation. -/
def searchMemory (query : String) (category : Option String) (limit : Nat)
    (s : MemoryState) : Except PErr (List MemoryEntry) :=
  let ql := lowerStr query
  let cacheHits := s.memory_cache.filter (fun e =>
    (!(optTruthy category) || (e.category == category.getD "")) &&
    (strIn ql (lowerStr e.content) ||
      strIn ql (lowerStr (String.intercalate " " e.tags))))
  if !s.db_available then .error .dbUnavailable
  else
    let dbHits := (sortMemDesc (s.db_memories.filter (fun e =>
        (strIn ql (lowerStr e.content) || strIn ql (lowerStr (jsonTags e.tags))) &&
        (!(optTruthy category) || (e.category == category.getD ""))))).take limit
    .ok ((sortMemDesc (dedupAppend cacheHits dbHits)).take limit)

/-- Has this entry's `expires_at` passed (strictly) at time `now`? -/
def isExpired (now : Nat) (e : MemoryEntry) : Bool :=
  match e.expires_at with
  | none => false
  | some t => t < now

/-- Embeds `MemoryManager.cleanup_expired_entries`: collect the ids of database
entries whose `expires_at` is set and strictly before `now`, delete those
rows in one statement committed once, pop the same ids from the
important-entry cache, and report the count removed. -/
def cleanupExpiredEntries (now : Nat) (s : MemoryState) :
    Except PErr (MemoryState × Nat) :=
  if !s.db_available then .error .dbUnavailable
  else
    let expiredIds := (s.db_memories.filter (isExpired now)).map (·.id)
    .ok ({ s with
            db_memories := s.db_memories.filter (fun e => !expiredIds.contains e.id)
            memory_cache := s.memory_cache.filter (fun e => !expiredIds.contains e.id) },
         expiredIds.length)

/-! ### Gateway (`src/core/gateway.py`)

The message payloads routed by the gateway are dicts; the model keeps the
keys the core reads (`content`, `channel`, `user_id`, `channel_id`, `type`,
`notification_type`), each `none` when absent. -/

/-- The payload dict of a `route_message` call. -/
structure Payload where
  content : Option String
  channel : Option String
  user_id : Option String
  channel_id : Option String
  type : Option String
  notification_type : Option String
deriving DecidableEq, Repr

/-- The dict returned by `Agent.process_message`. -/
structure AgentResponse where
  agent_id : String
  response : String
  timestamp : Nat
  original_request : Payload
deriving DecidableEq, Repr

/-- Exceptions that can cross the gateway's routing path. The spec's error
taxonomy names a typed `RoutingError` wrapping an original cause; the
constructor is available here so that statements about it can be made, but
nothing in the code ever raises it. -/
inductive GErr where
  | notRunning
  | agentFailure (msg : String)
  | channelFailure (msg : String)
  | persistence (e : PErr)
  | routingError (cause : GErr)
deriving DecidableEq, Repr

/-- The `str(e)` rendering attached to `error_occurred` events. -/
def errStr : GErr → String
  | .notRunning => "Gateway is not running"
  | .agentFailure m => m
  | .channelFailure m => m
  | .persistence .dbUnavailable => "database unavailable"
  | .persistence .duplicateKey => "duplicate primary key"
  | .routingError _ => "routing error"

/-- An agent's `process_message` capability: it may raise. -/
def Agent := Payload → Except GErr AgentResponse

/-- A route handler's possible return values (`Any` in the Python source):
an agent response, a channel send outcome, an internal-message
acknowledgement, or a health report (component sub-reports elided — none of
them can raise). -/
inductive RouteValue where
  | agentResp (r : AgentResponse)
  | sendRes (success : Bool) (message_id : String)
  | notifAck (status message : String)
  | healthRep (gatewayRunning : Bool)
deriving DecidableEq, Repr

/-- Event payloads delivered to observers. -/
inductive EventData where
  | messageReceived (source destination : String) (message_data : Payload)
      (timestamp : Nat)
  | messageProcessed (source destination : String) (message_data : Payload)
      (result : Option RouteValue) (timestamp : Nat)
  | agentResponseEvt (channel_id : String) (result : RouteValue) (timestamp : Nat)
  | errorOccurred (error context : String) (timestamp : Nat)

/-- A registered event observer; calling it may raise. -/
def Observer := EventData → Except String Unit

/-- Embeds `Gateway._emit_event`: every registered observer is invoked in
registration order; each invocation is wrapped in its own `try`/`except`, so
a raising observer is logged and delivery continues with the next one. The
returned list records one outcome per observer, in order. -/
def emitEvent (observers : List Observer) (ev : EventData) :
    List (Except String Unit) :=
  observers.map (fun h => h ev)

/-- The gateway state after `initialize`: the `running` flag, the agent
manager's registry and default agent id, an optional memory manager, an
optional channel manager (reduced to its `send_message` operation), and the
per-topic observer lists in registration order. -/
structure Gateway where
  running : Bool
  defaultAgentId : Option String
  agents : List (String × Agent)
  memory : Option MemoryState
  channelSend : Option (String → Payload → Except GErr (Bool × String))
  receivedObs : List Observer
  processedObs : List Observer
  agentRespObs : List Observer
  errorObs : List Observer

/-- What a route handler communicates back to `route_message`: its return
value or raised exception, the memory state left behind, the context string
of an `error_occurred` event it emitted before re-raising (if any), and an
`agent_response` event it emitted (if any). -/
structure HandlerResult where
  outcome : Except GErr (Option RouteValue)
  memory : Option MemoryState
  errorCtx : Option String
  agentRespEvt : Option EventData

/-- Embeds `Gateway._select_agent_for_message`: the placeholder selection policy
reads the payload's channel but always answers the default agent id. -/
def selectAgentForMessage (defaultAgentId : Option String) (_m : Payload) :
    Option String :=
  defaultAgentId

/-- The dict `_route_channel_to_agent` hands to `store_interaction`. Its
`source` key carries the payload's channel; the `type`, `agent_id`, `input`
and `output` keys it also sets are not among the keys `store_interaction`
reads, so they are dropped here; no `user_id`, `input_text` or `output_text`
key is set. (In the Python source the `timestamp` value is an ISO string on
which `store_interaction` then calls `.isoformat()` — an `AttributeError`;
the model charitably passes the clock reading through.) -/
def gatewayInteractionDict (message_data : Payload) (now : Nat) :
    InteractionData :=
  { id := none
    timestamp := some now
    source := message_data.channel
    user_id := none
    input_text := none
    output_text := none
    metadata := none
    session_id := none }

/-- Embeds `Gateway._route_channel_to_agent`: select an agent (no-op result when
none resolves), run its `process_message`, persist the exchange when a
memory manager is attached, and on any raise emit `error_occurred` with
context `channel_to_agent_routing` and re-raise the original exception. -/
def routeChannelToAgent (defaultAgentId : Option String)
    (agents : List (String × Agent)) (memory : Option MemoryState)
    (message_data : Payload) (now : Nat) (freshId : String) : HandlerResult :=
  match selectAgentForMessage defaultAgentId message_data with
  | none => { outcome := .ok none, memory := memory, errorCtx := none,
              agentRespEvt := none }
  | some aid =>
    if aid.isEmpty then
      { outcome := .ok none, memory := memory, errorCtx := none,
        agentRespEvt := none }
    else
      match agents.lookup aid with
      | none => { outcome := .ok none, memory := memory, errorCtx := none,
                  agentRespEvt := none }
      | some agent =>
        match agent message_data with
        | .error e =>
            { outcome := .error e, memory := memory,
              errorCtx := some "channel_to_agent_routing", agentRespEvt := none }
        | .ok resp =>
          match memory with
          | none =>
              { outcome := .ok (some (.agentResp resp)), memory := none,
                errorCtx := none, agentRespEvt := none }
          | some mem =>
            match storeInteraction (gatewayInteractionDict message_data now)
                now freshId mem with
            | .error pe =>
                { outcome := .error (.persistence pe), memory := some mem,
                  errorCtx := some "channel_to_agent_routing",
                  agentRespEvt := none }
            | .ok (mem2, _) =>
                { outcome := .ok (some (.agentResp resp)), memory := some mem2,
                  errorCtx := none, agentRespEvt := none }

/-- Embeds `Gateway._route_agent_to_channel`: a missing/falsy `channel_id` or absent
channel manager is a logged no-op; otherwise delegate to the channel
manager's send operation, emitting `agent_response` on success, and on a
raise emit `error_occurred` with context `agent_to_channel_routing` and
re-raise. -/
def routeAgentToChannel
    (channelSend : Option (String → Payload → Except GErr (Bool × String)))
    (memory : Option MemoryState) (message_data : Payload) (now : Nat) :
    HandlerResult :=
  match message_data.channel_id with
  | none => { outcome := .ok none, memory := memory, errorCtx := none,
              agentRespEvt := none }
  | some cid =>
    if cid.isEmpty then
      { outcome := .ok none, memory := memory, errorCtx := none,
        agentRespEvt := none }
    else
      match channelSend with
      | none => { outcome := .ok none, memory := memory, errorCtx := none,
                  agentRespEvt := none }
      | some send =>
        match send cid message_data with
        | .error e =>
            { outcome := .error e, memory := memory,
              errorCtx := some "agent_to_channel_routing", agentRespEvt := none }
        | .ok (succ, mid) =>
            { outcome := .ok (some (.sendRes succ mid)), memory := memory,
              errorCtx := none,
              agentRespEvt := some (.agentResponseEvt cid (.sendRes succ mid) now) }

/-- Embeds `Gateway._handle_system_notification`: dispatch on `notification_type`
(the `health_check` kind answers the health report). -/
def handleSystemNotification (running : Bool) (message_data : Payload) :
    RouteValue :=
  match message_data.notification_type with
  | some "startup" => .notifAck "processed" "Startup notification handled"
  | some "shutdown" => .notifAck "processed" "Shutdown notification handled"
  | some "health_check" => .healthRep running
  | some other => .notifAck "processed" ("Notification " ++ other ++ " handled")
  | none => .notifAck "processed" "Notification None handled"

/-- Embeds `Gateway._route_internal_message`: dispatch on the payload's `type`; an
unrecognized type is a logged no-op. None of its branches can raise. -/
def routeInternalMessage (running : Bool) (memory : Option MemoryState)
    (message_data : Payload) : HandlerResult :=
  { outcome := .ok (match message_data.type with
      | some "system_notification" =>
          some (handleSystemNotification running message_data)
      | some "component_health_check" => some (.healthRep running)
      | _ => none)
    memory := memory
    errorCtx := none
    agentRespEvt := none }

/-- The three route keys registered by `_setup_message_routing`. -/
def routeKeys : List String :=
  ["channel_to_agent", "agent_to_channel", "internal_message"]

/-- What a `route_message` call leaves behind: the value returned to the
caller or the exception that reached it, the memory manager's state, and —
for each event topic — the list of observer outcomes when the event was
emitted (`none` when it was not). -/
structure RouteResult where
  outcome : Except GErr (Option RouteValue)
  memory : Option MemoryState
  receivedTrace : Option (List (Except String Unit))
  processedTrace : Option (List (Except String Unit))
  agentRespTrace : Option (List (Except String Unit))
  errorTrace : Option (List (Except String Unit))

/-- Embeds `Gateway.route_message`: raise when not running; silently return a no-op
result for an unregistered `source + "_to_" + destination` key; otherwise
emit `message_received`, run the handler, and on success emit
`message_processed` and return the handler's value verbatim. `route_message`
itself installs no `try` around the handler, so a handler's raise (after the
handler emitted `error_occurred` and re-raised) reaches the caller as-is. -/
def routeMessage (g : Gateway) (source destination : String)
    (message_data : Payload) (now : Nat) (freshId : String) : RouteResult :=
  if !g.running then
    { outcome := .error .notRunning, memory := g.memory, receivedTrace := none,
      processedTrace := none, agentRespTrace := none, errorTrace := none }
  else
    let routeKey := source ++ "_to_" ++ destination
    if !(routeKeys.contains routeKey) then
      { outcome := .ok none, memory := g.memory, receivedTrace := none,
        processedTrace := none, agentRespTrace := none, errorTrace := none }
    else
      let recvTrace := emitEvent g.receivedObs
        (.messageReceived source destination message_data now)
      let hr : HandlerResult :=
        if routeKey == "channel_to_agent" then
          routeChannelToAgent g.defaultAgentId g.agents g.memory message_data
            now freshId
        else if routeKey == "agent_to_channel" then
          routeAgentToChannel g.channelSend g.memory message_data now
        else
          routeInternalMessage g.running g.memory message_data
      match hr.outcome with
      | .error e =>
          { outcome := .error e, memory := hr.memory,
            receivedTrace := some recvTrace, processedTrace := none,
            agentRespTrace := hr.agentRespEvt.map (emitEvent g.agentRespObs),
            errorTrace := hr.errorCtx.map (fun ctx =>
              emitEvent g.errorObs (.errorOccurred (errStr e) ctx now)) }
      | .ok r =>
          { outcome := .ok r, memory := hr.memory,
            receivedTrace := some recvTrace,
            processedTrace := some (emitEvent g.processedObs
              (.messageProcessed source destination message_data r now)),
            agentRespTrace := hr.agentRespEvt.map (emitEvent g.agentRespObs),
            errorTrace := none }

/-- Does the spec's `RoutingError` wrapper sit at the head of an error? -/
def isRoutingErr : GErr → Bool
  | .routingError _ => true
  | _ => false

/-! ### Concrete fixtures used by the scenario theorems and witnesses -/

/-- A fresh memory manager over an empty, reachable backing store. -/
def emptyMemory : MemoryState :=
  { db_interactions := [], db_memories := [], interaction_cache := [],
    memory_cache := [], db_available := true }

/-- A fresh memory manager whose backing store is unreachable. -/
def memDown : MemoryState :=
  { db_interactions := [], db_memories := [], interaction_cache := [],
    memory_cache := [], db_available := false }

/-- A default agent that echoes the payload's content. -/
def echoAgent : Agent := fun p =>
  .ok { agent_id := "default-agent", response := p.content.getD "",
        timestamp := 0, original_request := p }

/-- An agent whose `process_message` raises. -/
def boomAgent : Agent := fun _ => .error (.agentFailure "boom")

/-- The spec scenario's payload:
`{content: "hi", channel: "c1", user_id: "u1"}`. -/
def payload1 : Payload :=
  { content := some "hi", channel := some "c1", user_id := some "u1",
    channel_id := none, type := none, notification_type := none }

/-- A running gateway with the echo default agent and an attached, healthy
memory store. -/
def g0 : Gateway :=
  { running := true, defaultAgentId := some "default-agent",
    agents := [("default-agent", echoAgent)], memory := some emptyMemory,
    channelSend := none, receivedObs := [], processedObs := [],
    agentRespObs := [], errorObs := [] }

/-- Gateway `g0` with the backing store down. -/
def gDown : Gateway := { g0 with memory := some memDown }

/-- Gateway `g0` with the raising agent. -/
def gBoom : Gateway := { g0 with agents := [("default-agent", boomAgent)] }

/-- The interaction the routed `payload1` exchange actually persists at time
5 under fresh id `int_5`: its `source` is the channel, but `user_id`,
`input_text` and `output_text` all take their defaults because the gateway
passes none of those keys. -/
def storedByRoute : Interaction :=
  { id := "int_5", timestamp := 5, source := "c1", user_id := "unknown",
    input_text := "", output_text := "", metadata := none, session_id := none }

/-- The memory state `g0` is left with after routing `payload1`. -/
def memAfterRoute : MemoryState :=
  { db_interactions := [storedByRoute], db_memories := [],
    interaction_cache := [storedByRoute], memory_cache := [],
    db_available := true }

/-- The echo agent's response to `payload1`. -/
def echoResp : AgentResponse :=
  { agent_id := "default-agent", response := "hi", timestamp := 0,
    original_request := payload1 }

/-- The spec scenario's important memory entry
`{category: "demo", content: "hello world", tags: ["greeting"],
importance: 0.9}` stored at time 1 under id `m1`. -/
def entry1 : MemoryEntry :=
  { id := "m1", timestamp := 1, category := "demo", content := "hello world",
    tags := ["greeting"], importance := mkRat 9 10, expires_at := none }

/-- The dict from which `entry1` is stored. -/
def memData1 : MemoryData :=
  { id := some "m1", timestamp := some 1, category := some "demo",
    content := some "hello world", tags := some ["greeting"],
    importance := some (mkRat 9 10), expires_at := none }

/-- The store state after `storeMemory memData1`: the entry is durably
written and, being important, cached. -/
def memState1 : MemoryState :=
  { db_interactions := [], db_memories := [entry1], interaction_cache := [],
    memory_cache := [entry1], db_available := true }

/-- An unimportant entry whose `expires_at` (time 2) has passed at any query
time from 3 on. -/
def expiredEntry : MemoryEntry :=
  { id := "m2", timestamp := 1, category := "demo", content := "hello world",
    tags := [], importance := mkRat 5 10, expires_at := some 2 }

/-- A store holding only `expiredEntry` durably. -/
def memStateExpired : MemoryState :=
  { db_interactions := [], db_memories := [expiredEntry],
    interaction_cache := [], memory_cache := [], db_available := true }

/-- An unimportant entry whose content `"c"` and single tag `"t"` do not
contain `"["` — but whose JSON-serialized tag column does. -/
def bracketEntry : MemoryEntry :=
  { id := "m3", timestamp := 1, category := "x", content := "c",
    tags := ["t"], importance := mkRat 5 10, expires_at := none }

/-- A store holding only `bracketEntry` durably. -/
def memStateBracket : MemoryState :=
  { db_interactions := [], db_memories := [bracketEntry],
    interaction_cache := [], memory_cache := [], db_available := true }

/-- An entry with no `expires_at`, which cleanup must never remove. -/
def keepEntry : MemoryEntry :=
  { id := "m4", timestamp := 1, category := "demo", content := "keep",
    tags := [], importance := mkRat 9 10, expires_at := none }

/-- A store holding an expired and a permanent entry, both also cached. -/
def memStateMixed : MemoryState :=
  { db_interactions := [], db_memories := [expiredEntry, keepEntry],
    interaction_cache := [], memory_cache := [expiredEntry, keepEntry],
    db_available := true }

/-- State `memStateMixed` after cleanup at time 3. -/
def memStateCleaned : MemoryState :=
  { db_interactions := [], db_memories := [keepEntry],
    interaction_cache := [], memory_cache := [keepEntry],
    db_available := true }

/-- The dict of a `store_interaction` call that omits every key. -/
def emptyInteractionData : InteractionData :=
  { id := none, timestamp := none, source := none, user_id := none,
    input_text := none, output_text := none, metadata := none,
    session_id := none }

/-- The interaction `store_interaction` builds from an empty dict at time
`now` with fresh id `fid`. -/
def defaultInteraction (now : Nat) (fid : String) : Interaction :=
  { id := fid, timestamp := now, source := "unknown", user_id := "unknown",
    input_text := "", output_text := "", metadata := none, session_id := none }

/-- An observer that raises on every event. -/
def raisingObs : Observer := fun _ => .error "observer failed"

/-- Gateway `g0` with a raising observer registered on `message_processed`. -/
def gRaisingObs : Gateway := { g0 with processedObs := [raisingObs] }

/-- Replace a gateway's four observer registration lists. -/
def withObservers (g : Gateway) (obsR obsP obsA obsE : List Observer) : Gateway :=
  { g with receivedObs := obsR, processedObs := obsP, agentRespObs := obsA,
           errorObs := obsE }

/-- The state `c10_store_interaction_defaults` asserts `store_interaction`
produces from an all-defaults dict. -/
def storedDefaultState (now : Nat) (fid : String) (s : MemoryState) : MemoryState :=
  { s with
      db_interactions := s.db_interactions ++ [defaultInteraction now fid]
      interaction_cache :=
        evictOldest (cacheInsertI s.interaction_cache (defaultInteraction now fid)) }

/-! ### Theorems -/

/-- Claim C1 — the code contradicts the spec scenario. Routing
`("channel", "agent", {content: "hi", channel: "c1", user_id: "u1"})` on a
running gateway with the echo default agent and an attached store does
persist an interaction with `source = "c1"`, but its `user_id` is
`"unknown"`, not `"u1"`: the dict `_route_channel_to_agent` passes to
`store_interaction` has no `user_id` key (nor `input_text`/`output_text`).
Consequently `get_recent_interactions(user_id := "u1", limit := 1)` returns
the empty list instead of the stored record. -/
theorem c1_route_scenario_loses_user_id :
    (routeMessage g0 "channel" "agent" payload1 5 "int_5").outcome
        = .ok (some (.agentResp echoResp)) ∧
      (routeMessage g0 "channel" "agent" payload1 5 "int_5").memory
        = some memAfterRoute ∧
      memAfterRoute.db_interactions.map (fun i => (i.source, i.user_id))
        = [("c1", "unknown")] ∧
      getRecentInteractions (some "u1") 1 memAfterRoute = .ok [] := by
  exact ⟨rfl, rfl, rfl, by decide⟩

/-- Claim C2 is refuted: on `gDown` the handler (the echo agent) completes
successfully, yet the failing store-interaction step changes what the caller
gets — `route_message` raises the persistence failure instead of returning
the handler's result. -/
theorem c2_counterexample_persistence_failure_raises :
    echoAgent payload1 = .ok echoResp ∧
      (routeMessage gDown "channel" "agent" payload1 5 "int_5").outcome
        = .error (.persistence .dbUnavailable) := by
  exact ⟨rfl, rfl⟩

/-- Claim C3 is refuted: when the registered `channel_to_agent` handler's
agent raises, the exception reaching the caller is the original error
itself, not a `RoutingError` wrapper (no such wrapping exists anywhere in
the code). -/
theorem c3_counterexample_no_routing_error_wrapper :
    (routeMessage gBoom "channel" "agent" payload1 5 "int_5").outcome
        = .error (.agentFailure "boom") ∧
      isRoutingErr (.agentFailure "boom") = false := by
  exact ⟨rfl, rfl⟩

/-- Claim C4 is refuted: `entry1` (importance 0.9 > 0.7) is stored and does
land in the important-entry cache, but a subsequent `search_memory` with a
matching query still opens a database connection unconditionally, so with
the backing store unavailable the call raises instead of returning the
cached entry. -/
theorem c4_counterexample_cache_not_served_when_db_down :
    storeMemory memData1 1 "m1" emptyMemory = .ok (memState1, entry1) ∧
      entry1.importance > importantThreshold ∧
      entry1 ∈ memState1.memory_cache ∧
      searchMemory "hello" none 10 { memState1 with db_available := false }
        = .error .dbUnavailable := by
  decide

/-- Claim C5 is refuted: `expiredEntry` expired at time 2, yet
`search_memory` — which consults no clock at all — still returns it from
durable storage (at any query time, in particular time 3). -/
theorem c5_counterexample_expired_entry_returned :
    isExpired 3 expiredEntry = true ∧
      searchMemory "hello" none 10 memStateExpired = .ok [expiredEntry] := by
  decide

/-- Claim C6 is refuted on its "only if the query matches content or joined
tag text" clause: the database predicate is `tags LIKE '%q%'` over the
JSON-serialized tag column, so the query `"["` returns `bracketEntry` even
though `"["` occurs neither in its content nor in its space-joined tag
text. -/
theorem c6_counterexample_matches_serialized_tags :
    searchMemory "[" none 10 memStateBracket = .ok [bracketEntry] ∧
      strIn (lowerStr "[") (lowerStr bracketEntry.content) = false ∧
      strIn (lowerStr "[")
        (lowerStr (String.intercalate " " bracketEntry.tags)) = false := by
  decide

/-- Claim C10: a `store_interaction` call whose dict omits every key
succeeds (given a reachable store and a fresh id): it builds the interaction
from the fresh id, the current clock, `"unknown"` for source and user_id and
`""` for the texts, raising no validation error. -/
theorem c10_store_interaction_defaults (now : Nat) (fid : String)
    (s : MemoryState) (hdb : s.db_available = true)
    (hfresh : s.db_interactions.any (fun j => j.id == fid) = false) :
    storeInteraction emptyInteractionData now fid s
      = .ok (storedDefaultState now fid s, defaultInteraction now fid) := by
  simp [storeInteraction, emptyInteractionData, defaultInteraction,
    storedDefaultState, hdb, hfresh]

/-- Witness for C10 at a concrete input. -/
theorem c10_store_interaction_defaults_witness :
    storeInteraction emptyInteractionData 7 "int_7" emptyMemory
      = .ok (storedDefaultState 7 "int_7" emptyMemory,
             defaultInteraction 7 "int_7") :=
  c10_store_interaction_defaults 7 "int_7" emptyMemory rfl rfl

/-- The stable descending-by-timestamp sort really is sorted. -/
theorem sorted_sortIntDesc (l : List Interaction) :
    List.Sorted intDesc (sortIntDesc l) :=
  List.sorted_insertionSort intDesc l

/-- Truncation preserves sortedness of the interaction sort. -/
theorem sorted_take_sortIntDesc (l : List Interaction) (n : Nat) :
    List.Sorted intDesc ((sortIntDesc l).take n) :=
  List.Pairwise.sublist (List.take_sublist n _) (sorted_sortIntDesc l)

/-- Claim C7: an unfiltered `get_recent_interactions` call that returns (in
any store state — in particular after any sequence of stores) yields a list
sorted by timestamp descending, never longer than the requested limit. -/
theorem c7_recent_interactions_sorted_and_bounded (limit : Nat)
    (s : MemoryState) (l : List Interaction)
    (h : getRecentInteractions none limit s = .ok l) :
    List.Sorted intDesc l ∧ l.length ≤ limit := by
  unfold getRecentInteractions at h
  simp only [optTruthy, Bool.false_eq_true, if_false] at h
  split at h
  · split at h
    · exact absurd h (by simp)
    · rw [Except.ok.injEq] at h
      subst h
      exact ⟨sorted_take_sortIntDesc _ _, List.length_take_le _ _⟩
  · rw [Except.ok.injEq] at h
    subst h
    exact ⟨sorted_take_sortIntDesc _ _, List.length_take_le _ _⟩

/-- Witness for C7: retrieving from a fresh store returns the empty list,
sorted and within the limit. -/
theorem c7_recent_interactions_witness :
    List.Sorted intDesc ([] : List Interaction) ∧
      ([] : List Interaction).length ≤ 3 :=
  c7_recent_interactions_sorted_and_bounded 3 emptyMemory [] (by decide)

/-- For a table row, membership of its id in the expired-id list computed by
cleanup is exactly its own expiry, provided the table's ids are distinct. -/
theorem mem_expiredIds_iff (now : Nat) (db : List MemoryEntry)
    (hnodup : (db.map (·.id)).Nodup) (e : MemoryEntry) (he : e ∈ db) :
    ((db.filter (isExpired now)).map (·.id)).contains e.id = isExpired now e := by
  cases hexp : isExpired now e with
  | true =>
    simp only [List.contains_iff_exists_mem_beq, beq_iff_eq, List.mem_map,
      List.mem_filter]
    exact ⟨e.id, ⟨e, ⟨he, hexp⟩, rfl⟩, rfl⟩
  | false =>
    simp only [List.contains_iff_exists_mem_beq, beq_iff_eq, List.mem_map,
      List.mem_filter, Bool.eq_false_iff, ne_eq]
    rintro ⟨x, ⟨d, ⟨hd, hdexp⟩, rfl⟩, hid⟩
    have : d = e := List.inj_on_of_nodup_map hnodup hd he hid.symm
    rw [this] at hdexp
    rw [hdexp] at hexp
    exact Bool.true_eq_false.mp hexp

/-- Claim C8: one `cleanup_expired_entries` invocation removes exactly the
entries whose `expires_at` is set and strictly before the call-time clock —
entries without `expires_at` survive — from both the durable table and the
important-entry cache (the cache being consistent with the table, as every
code path that fills it guarantees), leaves interactions untouched, and
reports the count removed; the batch is one atomic commit. -/
theorem c8_cleanup_removes_exactly_expired (now : Nat) (s s2 : MemoryState)
    (n : Nat) (hnodup : (s.db_memories.map (·.id)).Nodup)
    (hcons : ∀ c ∈ s.memory_cache, ∃ d ∈ s.db_memories,
      d.id = c.id ∧ d.expires_at = c.expires_at)
    (h : cleanupExpiredEntries now s = .ok (s2, n)) :
    s2.db_memories = s.db_memories.filter (fun e => !(isExpired now e)) ∧
      s2.memory_cache = s.memory_cache.filter (fun e => !(isExpired now e)) ∧
      n = (s.db_memories.filter (isExpired now)).length ∧
      s2.db_interactions = s.db_interactions ∧
      s2.interaction_cache = s.interaction_cache := by
  unfold cleanupExpiredEntries at h
  split at h
  · exact absurd h (by simp)
  · rw [Except.ok.injEq, Prod.mk.injEq] at h
    obtain ⟨hst, hn⟩ := h
    subst hst
    subst hn
    refine ⟨?_, ?_, ?_, rfl, rfl⟩
    · apply List.filter_congr
      intro e he
      rw [mem_expiredIds_iff now s.db_memories hnodup e he]
    · apply List.filter_congr
      intro c hc
      obtain ⟨d, hd, hid, hexp⟩ := hcons c hc
      have h1 : isExpired now c = isExpired now d := by
        simp [isExpired, hexp]
      rw [← hid, mem_expiredIds_iff now s.db_memories hnodup d hd, h1]
    · rw [List.length_map]

/-- Witness for C8 on a store holding one expired and one permanent entry,
both cached: cleanup deletes exactly the expired one from table and cache. -/
theorem c8_cleanup_witness :
    memStateCleaned.db_memories
        = memStateMixed.db_memories.filter (fun e => !(isExpired 3 e)) ∧
      memStateCleaned.memory_cache
        = memStateMixed.memory_cache.filter (fun e => !(isExpired 3 e)) ∧
      1 = (memStateMixed.db_memories.filter (isExpired 3)).length ∧
      memStateCleaned.db_interactions = memStateMixed.db_interactions ∧
      memStateCleaned.interaction_cache = memStateMixed.interaction_cache :=
  c8_cleanup_removes_exactly_expired 3 memStateMixed memStateCleaned 1
    (by decide) (by decide) (by decide)

/-- Claim C9: event-observer failures never affect routing. Whatever the
four observer lists are — including raising observers — the outcome returned
(or raised) to the caller and the memory state left behind are those of the
observer-free gateway; and whenever a topic fires, every registered observer
of that topic is invoked, in registration order, one recorded outcome each
(each invocation sits in its own `try`/`except`, so a raise does not stop
delivery to the observers after it, and is never propagated). -/
theorem c9_observer_failures_never_affect_route (g : Gateway)
    (obsR obsP obsA obsE : List Observer) (src dst : String) (p : Payload)
    (now : Nat) (fid : String) :
    (routeMessage (withObservers g obsR obsP obsA obsE) src dst p now fid).outcome
        = (routeMessage g src dst p now fid).outcome ∧
      (routeMessage (withObservers g obsR obsP obsA obsE) src dst p now fid).memory
        = (routeMessage g src dst p now fid).memory ∧
      (∀ tr, (routeMessage (withObservers g obsR obsP obsA obsE) src dst p now
            fid).receivedTrace = some tr →
        tr = obsR.map (fun h => h (.messageReceived src dst p now))) ∧
      (∀ tr, (routeMessage (withObservers g obsR obsP obsA obsE) src dst p now
            fid).processedTrace = some tr →
        tr.length = obsP.length) ∧
      (∀ tr, (routeMessage (withObservers g obsR obsP obsA obsE) src dst p now
            fid).errorTrace = some tr →
        tr.length = obsE.length) := by
  obtain ⟨run, dai, ags, mem, ch, r0, p0, a0, e0⟩ := g
  unfold withObservers routeMessage
  cases run
  · simp
  · by_cases hk : (routeKeys.contains (src ++ "_to_" ++ dst)) = true
    · simp only [hk, Bool.not_true, Bool.false_eq_true, if_false, Bool.not_false,
        if_true]
      set hr := (if (src ++ "_to_" ++ dst) == "channel_to_agent" then
          routeChannelToAgent dai ags mem p now fid
        else if (src ++ "_to_" ++ dst) == "agent_to_channel" then
          routeAgentToChannel ch mem p now
        else routeInternalMessage true mem p) with hhr
      cases hout : hr.outcome
      · simp only [hout]
        refine ⟨trivial, trivial, ?_, ?_, ?_⟩
        · intro tr htr
          rw [Option.some.injEq] at htr
          rw [← htr]
          rfl
        · intro tr htr
          exact absurd htr (by simp)
        · intro tr htr
          rcases hctx : hr.errorCtx with _ | ctx
          · rw [hctx] at htr
            exact absurd htr (by simp)
          · rw [hctx] at htr
            simp only [Option.map_some', Option.some.injEq] at htr
            rw [← htr]
            simp [emitEvent]
      · simp only [hout]
        refine ⟨trivial, trivial, ?_, ?_, ?_⟩
        · intro tr htr
          rw [Option.some.injEq] at htr
          rw [← htr]
          rfl
        · intro tr htr
          rw [Option.some.injEq] at htr
          rw [← htr]
          simp [emitEvent]
        · intro tr htr
          exact absurd htr (by simp)
    · simp [Bool.not_eq_true] at hk
      simp [hk]

/-- Witness for C9, mirroring the spec scenario: a raising observer on
`message_processed` does not change the outcome of routing `payload1`, the
handler's result is still returned, and the observer was delivered the
event. -/
theorem c9_observer_failures_witness :
    (routeMessage gRaisingObs "channel" "agent" payload1 5 "int_5").outcome
        = (routeMessage g0 "channel" "agent" payload1 5 "int_5").outcome ∧
      (routeMessage gRaisingObs "channel" "agent" payload1 5 "int_5").outcome
        = .ok (some (.agentResp echoResp)) ∧
      (∀ tr, (routeMessage gRaisingObs "channel" "agent" payload1 5
            "int_5").processedTrace = some tr → tr.length = 1) :=
  ⟨(c9_observer_failures_never_affect_route g0 [] [raisingObs] [] []
      "channel" "agent" payload1 5 "int_5").1,
   ((c9_observer_failures_never_affect_route g0 [] [raisingObs] [] []
      "channel" "agent" payload1 5 "int_5").1).trans rfl,
   (c9_observer_failures_never_affect_route g0 [] [raisingObs] [] []
      "channel" "agent" payload1 5 "int_5").2.2.2.1⟩

/-- Claim C2 as amended: when the channel→agent handler's agent succeeds but
the subsequent store-interaction step fails, the route does NOT return the
handler's result — the persistence failure is re-raised to the caller, after
an `error_occurred` event with the `channel_to_agent_routing` context is
emitted. -/
theorem c2_persistence_failure_propagates (g : Gateway) (p : Payload)
    (now : Nat) (fid : String) (aid : String) (agent : Agent)
    (resp : AgentResponse) (mem : MemoryState) (pe : PErr)
    (hrun : g.running = true) (hsel : g.defaultAgentId = some aid)
    (hne : aid.isEmpty = false) (hagent : g.agents.lookup aid = some agent)
    (hok : agent p = .ok resp) (hmem : g.memory = some mem)
    (hstore : storeInteraction (gatewayInteractionDict p now) now fid mem
      = .error pe) :
    (routeMessage g "channel" "agent" p now fid).outcome
        = .error (.persistence pe) ∧
      (routeMessage g "channel" "agent" p now fid).errorTrace
        = some (emitEvent g.errorObs (.errorOccurred
            (errStr (.persistence pe)) "channel_to_agent_routing" now)) := by
  unfold routeMessage routeChannelToAgent selectAgentForMessage
  simp [hrun, hsel, hne, hagent, hok, hmem, hstore, routeKeys]

/-- Witness for the amended C2 on the concrete down-store gateway. -/
theorem c2_persistence_failure_witness :
    (routeMessage gDown "channel" "agent" payload1 5 "int_5").outcome
        = .error (.persistence .dbUnavailable) ∧
      (routeMessage gDown "channel" "agent" payload1 5 "int_5").errorTrace
        = some (emitEvent gDown.errorObs (.errorOccurred
            (errStr (.persistence .dbUnavailable)) "channel_to_agent_routing"
            5)) :=
  c2_persistence_failure_propagates gDown payload1 5 "int_5" "default-agent"
    echoAgent echoResp memDown .dbUnavailable rfl rfl rfl rfl rfl rfl rfl

/-- Claim C3 as amended: when the channel→agent handler's agent raises, the
exception reaching the caller is the original one, unwrapped (the code
defines no `RoutingError`); the handler does emit `error_occurred` with the
failure context before re-raising. -/
theorem c3_handler_exception_propagates_raw (g : Gateway) (p : Payload)
    (now : Nat) (fid : String) (aid : String) (agent : Agent) (e : GErr)
    (hrun : g.running = true) (hsel : g.defaultAgentId = some aid)
    (hne : aid.isEmpty = false) (hagent : g.agents.lookup aid = some agent)
    (hraise : agent p = .error e) :
    (routeMessage g "channel" "agent" p now fid).outcome = .error e ∧
      (routeMessage g "channel" "agent" p now fid).errorTrace
        = some (emitEvent g.errorObs (.errorOccurred (errStr e)
            "channel_to_agent_routing" now)) := by
  unfold routeMessage routeChannelToAgent selectAgentForMessage
  simp [hrun, hsel, hne, hagent, hraise, routeKeys]

/-- Witness for the amended C3 on the concrete raising-agent gateway. -/
theorem c3_handler_exception_witness :
    (routeMessage gBoom "channel" "agent" payload1 5 "int_5").outcome
        = .error (.agentFailure "boom") ∧
      (routeMessage gBoom "channel" "agent" payload1 5 "int_5").errorTrace
        = some (emitEvent gBoom.errorObs (.errorOccurred
            (errStr (.agentFailure "boom")) "channel_to_agent_routing" 5)) :=
  c3_handler_exception_propagates_raw gBoom payload1 5 "int_5" "default-agent"
    boomAgent (.agentFailure "boom") rfl rfl rfl rfl rfl

/-- Inserting an entry into the important-entry cache leaves it a member,
whether it was appended or replaced an id-equal occupant. -/
theorem mem_cacheInsertM (c : List MemoryEntry) (e : MemoryEntry) :
    e ∈ cacheInsertM c e := by
  unfold cacheInsertM
  split
  · rename_i hany
    rw [List.any_eq_true] at hany
    obtain ⟨j, hj, hbeq⟩ := hany
    rw [List.mem_map]
    exact ⟨j, hj, by simp [hbeq]⟩
  · exact List.mem_append.mpr (Or.inr (by simp))

/-- Claim C4 as amended: an entry stored with importance above 0.7 does land
in the important-entry cache — but a subsequent `search_memory` still opens
a database connection unconditionally, so with the backing store disabled
the search raises a persistence error instead of serving the entry from the
cache. -/
theorem c4_important_cached_but_search_requires_db (d : MemoryData)
    (now : Nat) (fid : String) (s s2 : MemoryState) (e : MemoryEntry)
    (q : String) (cat : Option String) (lim : Nat)
    (hstore : storeMemory d now fid s = .ok (s2, e))
    (himp : importantThreshold < e.importance) :
    e ∈ s2.memory_cache ∧
      searchMemory q cat lim { s2 with db_available := false }
        = .error .dbUnavailable := by
  constructor
  · unfold storeMemory at hstore
    split at hstore
    · exact absurd hstore (by simp)
    · simp only [] at hstore
      split at hstore
      · exact absurd hstore (by simp)
      · split at hstore
        · rw [Except.ok.injEq, Prod.mk.injEq] at hstore
          obtain ⟨h1, h2⟩ := hstore
          rw [← h1, h2]
          exact mem_cacheInsertM _ _
        · rename_i hle
          rw [Except.ok.injEq, Prod.mk.injEq] at hstore
          obtain ⟨h1, h2⟩ := hstore
          subst h2
          exact absurd himp hle
  · unfold searchMemory
    simp

/-- Witness for the amended C4 on the spec scenario's 0.9-importance
entry. -/
theorem c4_important_cached_witness :
    entry1 ∈ memState1.memory_cache ∧
      searchMemory "hello" none 10 { memState1 with db_available := false }
        = .error .dbUnavailable :=
  c4_important_cached_but_search_requires_db memData1 1 "m1" emptyMemory
    memState1 entry1 "hello" none 10 (by decide) (by decide)

/-- Elements of the de-duplicating append come from one of its inputs. -/
theorem mem_dedupAppend {e : MemoryEntry} (acc l : List MemoryEntry)
    (h : e ∈ dedupAppend acc l) : e ∈ acc ∨ e ∈ l := by
  induction l generalizing acc with
  | nil => exact Or.inl h
  | cons x t ih =>
    unfold dedupAppend at h
    rw [List.foldl_cons] at h
    rcases ih _ h with h2 | h2
    · by_cases hc : (acc.any fun r => r.id == x.id) = true
      · rw [if_pos hc] at h2
        exact Or.inl h2
      · rw [if_neg hc] at h2
        rcases List.mem_append.mp h2 with h3 | h3
        · exact Or.inl h3
        · rw [List.mem_singleton] at h3
          exact Or.inr (List.mem_cons.mpr (Or.inl h3))
    · exact Or.inr (List.mem_cons_of_mem x h2)

/-- Every element of a `search_memory` result came either from the
important-entry cache, passing the cache-side predicate (space-joined tag
text), or from the durable table, passing the SQL predicate (JSON-serialized
tag text); in either case the optional category filter held. -/
theorem searchMemory_mem_split (q : String) (cat : Option String) (lim : Nat)
    (s : MemoryState) (l : List MemoryEntry)
    (h : searchMemory q cat lim s = .ok l) {e : MemoryEntry} (he : e ∈ l) :
    (e ∈ s.memory_cache ∧
      ((!(optTruthy cat) || (e.category == cat.getD "")) &&
        (strIn (lowerStr q) (lowerStr e.content) ||
          strIn (lowerStr q) (lowerStr (String.intercalate " " e.tags)))) = true) ∨
    (e ∈ s.db_memories ∧
      ((strIn (lowerStr q) (lowerStr e.content) ||
          strIn (lowerStr q) (lowerStr (jsonTags e.tags))) &&
        (!(optTruthy cat) || (e.category == cat.getD ""))) = true) := by
  unfold searchMemory at h
  split at h
  · exact absurd h (by simp)
  · rw [Except.ok.injEq] at h
    subst h
    have h1 := List.take_subset _ _ he
    simp only [sortMemDesc, List.mem_insertionSort] at h1
    rcases mem_dedupAppend _ _ h1 with h2 | h2
    · exact Or.inl (List.mem_filter.mp h2)
    · have h3 := List.take_subset _ _ h2
      simp only [sortMemDesc, List.mem_insertionSort] at h3
      exact Or.inr (List.mem_filter.mp h3)

/-- Expiry only looks at the `expires_at` field. -/
theorem isExpired_congr (now : Nat) {a b : MemoryEntry}
    (h : a.expires_at = b.expires_at) : isExpired now a = isExpired now b := by
  simp [isExpired, h]

/-- Claim C5 as amended: `search_memory` itself applies no expiry filter — an
entry past its `expires_at` is returned like any other until
`cleanup_expired_entries` removes it; after a cleanup at time `now` (with
the cache consistent with the table, as the store operations guarantee), a
search returns no entry expired at `now`. -/
theorem c5_search_returns_expired_until_cleanup (now : Nat)
    (s s2 : MemoryState) (n : Nat) (q : String) (cat : Option String)
    (lim : Nat) (l : List MemoryEntry) (e : MemoryEntry)
    (hcons : ∀ c ∈ s.memory_cache, ∃ d ∈ s.db_memories,
      d.id = c.id ∧ d.expires_at = c.expires_at)
    (hclean : cleanupExpiredEntries now s = .ok (s2, n))
    (hsearch : searchMemory q cat lim s2 = .ok l) (he : e ∈ l) :
    isExpired now e = false := by
  have hmem := searchMemory_mem_split q cat lim s2 l hsearch he
  unfold cleanupExpiredEntries at hclean
  split at hclean
  · exact absurd hclean (by simp)
  · rw [Except.ok.injEq, Prod.mk.injEq] at hclean
    obtain ⟨hst, hn⟩ := hclean
    subst hst
    rcases hmem with ⟨hc, _⟩ | ⟨hd, _⟩
    · have hc2 : e ∈ s.memory_cache.filter (fun c =>
          !((s.db_memories.filter (isExpired now)).map (·.id)).contains c.id) := hc
      rw [List.mem_filter] at hc2
      obtain ⟨hcache, hpred⟩ := hc2
      by_contra hexp
      rw [Bool.not_eq_false] at hexp
      obtain ⟨d, hddb, hid, hexpat⟩ := hcons e hcache
      have hdexp : isExpired now d = true := (isExpired_congr now hexpat).trans hexp
      have hcont : ((s.db_memories.filter (isExpired now)).map (·.id)).contains
          e.id = true := by
        simp only [List.contains_iff_exists_mem_beq, beq_iff_eq, List.mem_map,
          List.mem_filter]
        exact ⟨e.id, ⟨d, ⟨hddb, hdexp⟩, hid⟩, rfl⟩
      rw [hcont] at hpred
      exact absurd hpred (by simp)
    · have hd2 : e ∈ s.db_memories.filter (fun c =>
          !((s.db_memories.filter (isExpired now)).map (·.id)).contains c.id) := hd
      rw [List.mem_filter] at hd2
      obtain ⟨hdb, hpred⟩ := hd2
      by_contra hexp
      rw [Bool.not_eq_false] at hexp
      have hcont : ((s.db_memories.filter (isExpired now)).map (·.id)).contains
          e.id = true := by
        simp only [List.contains_iff_exists_mem_beq, beq_iff_eq, List.mem_map,
          List.mem_filter]
        exact ⟨e.id, ⟨e, ⟨hdb, hexp⟩, rfl⟩, rfl⟩
      rw [hcont] at hpred
      exact absurd hpred (by simp)

/-- Witness for the amended C5: after cleaning `memStateMixed` at time 3, the
surviving search hit (`keepEntry`) is not expired. -/
theorem c5_search_cleanup_witness : isExpired 3 keepEntry = false :=
  c5_search_returns_expired_until_cleanup 3 memStateMixed memStateCleaned 1
    "keep" none 10 [keepEntry] keepEntry (by decide) (by decide) (by decide)
    (by decide)

/-- Truncating the stable descending sort keeps it sorted. -/
theorem sorted_take_sortMemDesc (l : List MemoryEntry) (n : Nat) :
    List.Sorted memDesc ((sortMemDesc l).take n) :=
  List.Pairwise.sublist (List.take_sublist n _)
    (List.sorted_insertionSort memDesc l)

/-- The de-duplicating append preserves distinctness of ids. -/
theorem nodup_ids_dedupAppend (acc l : List MemoryEntry)
    (h : (acc.map (·.id)).Nodup) : ((dedupAppend acc l).map (·.id)).Nodup := by
  induction l generalizing acc with
  | nil => exact h
  | cons x t ih =>
    unfold dedupAppend
    rw [List.foldl_cons]
    apply ih
    by_cases hc : (acc.any fun r => r.id == x.id) = true
    · rw [if_pos hc]
      exact h
    · rw [if_neg hc]
      rw [List.map_append, List.nodup_append]
      refine ⟨h, List.nodup_singleton _, ?_⟩
      intro a ha hmem
      simp only [List.map_cons, List.map_nil, List.mem_singleton] at hmem
      subst hmem
      rw [List.mem_map] at ha
      obtain ⟨r, hr, hid⟩ := ha
      rw [List.any_eq_true] at hc
      exact hc ⟨r, hr, by simp [hid]⟩

/-- Sorting then truncating preserves distinctness of ids. -/
theorem nodup_ids_sort_take (l : List MemoryEntry) (n : Nat)
    (h : (l.map (·.id)).Nodup) :
    (((sortMemDesc l).take n).map (·.id)).Nodup := by
  have hperm : List.Perm (sortMemDesc l) l := List.perm_insertionSort memDesc l
  have h2 : ((sortMemDesc l).map (·.id)).Nodup := ((hperm.map _).nodup_iff).mpr h
  exact List.Nodup.sublist (List.Sublist.map _ (List.take_sublist n _)) h2

/-- Filtering preserves distinctness of ids. -/
theorem nodup_ids_filter (l : List MemoryEntry) (p : MemoryEntry → Bool)
    (h : (l.map (·.id)).Nodup) : ((l.filter p).map (·.id)).Nodup :=
  List.Nodup.sublist (List.Sublist.map _ (List.filter_sublist l)) h

/-- Claim C6 as amended: a `search_memory` result (the cache holding
distinct ids, as a Python dict guarantees) contains no two elements with the
same id, is ordered by importance descending with ties broken by timestamp
descending, and is no longer than the limit; each element satisfies the
(truthy) category filter and case-insensitively matches the query in its
content, in its space-joined tag text (how the cache matches), or in its
JSON-serialized tag text (how the SQL `LIKE` on the `tags` column
matches). -/
theorem c6_search_result_shape (q : String) (cat : Option String) (lim : Nat)
    (s : MemoryState) (l : List MemoryEntry)
    (hnodupC : (s.memory_cache.map (·.id)).Nodup)
    (h : searchMemory q cat lim s = .ok l) :
    (l.map (·.id)).Nodup ∧ List.Sorted memDesc l ∧ l.length ≤ lim ∧
      ∀ e ∈ l, (optTruthy cat = true → e.category = cat.getD "") ∧
        (strIn (lowerStr q) (lowerStr e.content) = true ∨
          strIn (lowerStr q) (lowerStr (String.intercalate " " e.tags)) = true ∨
          strIn (lowerStr q) (lowerStr (jsonTags e.tags)) = true) := by
  refine ⟨?_, ?_, ?_, ?_⟩
  · unfold searchMemory at h
    split at h
    · exact absurd h (by simp)
    · rw [Except.ok.injEq] at h
      subst h
      apply nodup_ids_sort_take
      apply nodup_ids_dedupAppend
      exact nodup_ids_filter _ _ hnodupC
  · unfold searchMemory at h
    split at h
    · exact absurd h (by simp)
    · rw [Except.ok.injEq] at h
      subst h
      exact sorted_take_sortMemDesc _ _
  · unfold searchMemory at h
    split at h
    · exact absurd h (by simp)
    · rw [Except.ok.injEq] at h
      subst h
      exact List.length_take_le _ _
  · intro e he
    rcases searchMemory_mem_split q cat lim s l h he with ⟨_, hp⟩ | ⟨_, hp⟩
    · rw [Bool.and_eq_true] at hp
      obtain ⟨hcat, hm⟩ := hp
      refine ⟨?_, ?_⟩
      · intro hca
        rw [hca] at hcat
        simp only [Bool.not_true, Bool.false_or] at hcat
        exact eq_of_beq hcat
      · rw [Bool.or_eq_true] at hm
        rcases hm with hm | hm
        · exact Or.inl hm
        · exact Or.inr (Or.inl hm)
    · rw [Bool.and_eq_true] at hp
      obtain ⟨hm, hcat⟩ := hp
      refine ⟨?_, ?_⟩
      · intro hca
        rw [hca] at hcat
        simp only [Bool.not_true, Bool.false_or] at hcat
        exact eq_of_beq hcat
      · rw [Bool.or_eq_true] at hm
        rcases hm with hm | hm
        · exact Or.inl hm
        · exact Or.inr (Or.inr hm)

/-- Witness for the amended C6 on the spec scenario's store-then-search. -/
theorem c6_search_result_witness :
    (([entry1].map (·.id)).Nodup) ∧ List.Sorted memDesc [entry1] ∧
      [entry1].length ≤ 10 ∧
      ∀ e ∈ [entry1],
        (optTruthy (none : Option String) = true →
          e.category = (none : Option String).getD "") ∧
        (strIn (lowerStr "hello") (lowerStr e.content) = true ∨
          strIn (lowerStr "hello")
            (lowerStr (String.intercalate " " e.tags)) = true ∨
          strIn (lowerStr "hello") (lowerStr (jsonTags e.tags)) = true) :=
  c6_search_result_shape "hello" none 10 memState1 [entry1] (by decide)
    (by decide)

end Mybot
